import Mathlib

/-!
# Verification of the aklp-cli turn-orchestration pipeline

Shallow embedding of the core of the `aklp` command-line agent:

* `src/aklp/executor.py` — command guard (`validate_kubectl_command`) and the
  bounded executor (`run_kubectl`);
* `src/aklp/cli.py` — the turn orchestrator (`process_user_request`) and the
  exit-code logic of `single_shot_mode`;
* `src/aklp/history.py` — the session ledger (`HistoryManager.save_session`,
  `HistoryManager.load_last_session`);
* `src/aklp/models.py` — the pydantic data models the above use.

Conventions of the embedding:
* external collaborators (agent / note / task HTTP services, the interactive
  confirmation prompt, the spawned subprocess) are modelled by an `Env` value
  describing the outcome of each call, including the possibility that the
  call raises a service error or is interrupted by `KeyboardInterrupt`;
* wall-clock *values* (the `timestamp` field, elapsed times) and rendering
  (`display_*`, spinners) are outside the embedding, but the *assignment*
  `turn.llm_elapsed_time = ...` at src/aklp/cli.py line 127 is modelled:
  `ConversationTurn` is a pydantic-v2 model declaring no `llm_elapsed_time`
  field (and no `extra="allow"`), so that assignment raises
  `ValueError('"ConversationTurn" object has no field "llm_elapsed_time"')`
  on every run where the agent call returns, and control jumps to the
  generic `except Exception` handler — this dominates the pipeline's
  control flow;
* Python `datetime` and `UUID` values travel through the pipeline and the
  JSON store as opaque strings, which is exactly how `model_dump(mode="json")`
  serialises them;
* fallible operations return `Option` / `Except`.
-/

namespace Aklp

/-! ## Python string primitives

The embedding works on a string's character list (`String.data`), because
Python's `str` operations are character-based.  Each helper models exactly
one Python primitive. -/

/-- Models Python `str.strip()`: drop leading and trailing whitespace. -/
def pyStrip (s : String) : String :=
  ⟨((s.data.dropWhile Char.isWhitespace).reverse.dropWhile Char.isWhitespace).reverse⟩

/-- Models Python `s.startswith(p)`. -/
def pyStartsWith (s p : String) : Bool :=
  p.data.isPrefixOf s.data

/-- Models Python slicing `s[:n]`. -/
def pyTake (s : String) (n : Nat) : String :=
  ⟨s.data.take n⟩

/-- Models Python `len(s)`. -/
def pyLen (s : String) : Nat :=
  s.data.length

/-! ## Guard: `validate_kubectl_command` (src/aklp/executor.py, lines 13-34) -/

/-- The body of `validate_kubectl_command` after the local variable
`stripped = command.strip()` has been bound: the prefix check and the
message construction of src/aklp/executor.py lines 27-34. -/
def guardCheck (stripped : String) : Except String Bool :=
  if ¬ pyStartsWith stripped "kubectl " then
    .error (if pyLen stripped > 50 then
        "kubectl 명령어가 아닙니다: " ++ pyTake stripped 50 ++ "..."
      else
        "kubectl 명령어가 아닙니다: " ++ stripped)
  else
    .ok true

/-- Embeds `validate_kubectl_command`.  The Python function strips the
command, checks the `"kubectl "` prefix, and raises `InvalidCommandError`
with a preview capped at 50 characters (ellipsis appended when truncated);
on success it returns `True`.  Raising is modelled by `Except.error` carrying
the exception message. -/
def validate_kubectl_command (command : String) : Except String Bool :=
  guardCheck (pyStrip command)

/-! ## Executor: `run_kubectl` (src/aklp/executor.py, lines 47-86) -/

/-- Embeds the dataclass `ExecutionResult` of src/aklp/executor.py. -/
structure ExecutionResult where
  success : Bool
  stdout : String
  stderr : String
  return_code : Int
  deriving DecidableEq, Repr

/-- Outcome of the one `subprocess.run` call inside `run_kubectl`: normal
completion with captured streams and exit status, `subprocess.TimeoutExpired`,
or any other launch exception (whose `str(e)` text is carried). -/
inductive SpawnOutcome where
  | completed (stdout stderr : String) (returncode : Int)
  | timedOut
  | launchFailure (msg : String)
  deriving DecidableEq, Repr

/-- Embeds `run_kubectl`.  The nondeterminism of the subprocess is supplied
as a `SpawnOutcome`; the Python function catches every exception, so the
embedding is a total function into `ExecutionResult`. -/
def run_kubectl (outcome : SpawnOutcome) (timeout : Nat) : ExecutionResult :=
  match outcome with
  | .completed out err rc =>
      { success := rc == 0, stdout := out, stderr := err, return_code := rc }
  | .timedOut =>
      { success := false, stdout := "",
        stderr := "명령어 실행 시간 초과 (" ++ toString timeout ++ "초)",
        return_code := -1 }
  | .launchFailure m =>
      { success := false, stdout := "", stderr := m, return_code := -1 }

/-! ## Data models (src/aklp/models.py)

`datetime` and `UUID` fields are opaque strings (their ISO / hex text, the
form `model_dump(mode="json")` gives them); wall-clock fields (`timestamp`)
never influence control flow and are omitted. -/

/-- Embeds `AgentResponse` (src/aklp/models.py, lines 20-28). -/
structure AgentResponse where
  session_id : Option String := none
  success : Bool
  command : Option String := none
  reason : Option String := none
  title : Option String := none
  error_message : Option String := none
  deriving DecidableEq, Repr

/-- Embeds `AnalysisResult` (src/aklp/models.py, lines 40-47). -/
structure AnalysisResult where
  title : String
  description : String
  filename : String
  file_content : String
  shell_command : String
  deriving DecidableEq, Repr

/-- Embeds `NoteResponse` (src/aklp/models.py, lines 68-78). -/
structure NoteResponse where
  id : String
  session_id : Option String
  title : String
  content : String
  created_at : String
  updated_at : String
  deriving DecidableEq, Repr

/-- Embeds the `TaskStatus` enumeration (src/aklp/models.py, lines 111-116). -/
inductive TaskStatus where
  | pending
  | in_progress
  | completed
  deriving DecidableEq, Repr

/-- The string value pydantic serialises each `TaskStatus` member to. -/
def TaskStatus.toStr : TaskStatus → String
  | .pending => "pending"
  | .in_progress => "in_progress"
  | .completed => "completed"

/-- Embeds the `TaskPriority` enumeration (src/aklp/models.py, lines 119-124). -/
inductive TaskPriority where
  | high
  | medium
  | low
  deriving DecidableEq, Repr

/-- The string value pydantic serialises each `TaskPriority` member to. -/
def TaskPriority.toStr : TaskPriority → String
  | .high => "high"
  | .medium => "medium"
  | .low => "low"

/-- Embeds `TaskResponse` (src/aklp/models.py, lines 148-162). -/
structure TaskResponse where
  id : String
  session_id : Option String
  title : String
  description : Option String
  status : TaskStatus
  priority : Option TaskPriority
  due_date : Option String
  completed_at : Option String
  created_at : String
  updated_at : String
  deriving DecidableEq, Repr

/-- Embeds `ConversationTurn` (src/aklp/models.py, lines 217-226).  The
`timestamp` field (wall clock) is omitted; every other field is present with
its pydantic default.  Note that the model carries no field for the kubectl
`ExecutionResult`. -/
structure ConversationTurn where
  user_prompt : String
  analysis : Option AnalysisResult := none
  executed : Bool := false
  note_response : Option NoteResponse := none
  task_response : Option TaskResponse := none
  error : Option String := none
  deriving DecidableEq, Repr

/-- Embeds `SessionHistory` (src/aklp/models.py, lines 229-235), with
`started_at` as its serialised string. -/
structure SessionHistory where
  session_id : String
  started_at : String
  turns : List ConversationTurn
  deriving DecidableEq, Repr

/-! ## Orchestrator: `process_user_request` (src/aklp/cli.py, lines 96-234) -/

/-- Outcome of one awaited collaborator call: a value, a raised service
error (`AgentServiceError` / `NoteServiceError` / `TaskServiceError`, carrying
`str(e)`), or a `KeyboardInterrupt` delivered during the call. -/
inductive CallResult (α : Type) where
  | ok (a : α)
  | failed (msg : String)
  | interrupted
  deriving DecidableEq, Repr

/-- Outcome of the `confirm_execution()` prompt: the boolean answer, or a
`KeyboardInterrupt` while waiting for input. -/
inductive ConfirmResult where
  | yes
  | no
  | interrupted
  deriving DecidableEq, Repr

/-- One environment for a single `process_user_request` call: the outcome of
each external interaction the pipeline may perform, in pipeline order. -/
structure Env where
  agent : CallResult AgentResponse
  confirm : ConfirmResult
  spawn : SpawnOutcome
  note : CallResult NoteResponse
  task : CallResult TaskResponse
  deriving DecidableEq, Repr

/-- The result of one pipeline run: the `ConversationTurn` the source
function returns, instrumented with which collaborator calls were actually
issued (`note_attempted`, `task_attempted`, `executor_ran`) and the content
string handed to `create_note` when that call was issued. -/
structure PipelineResult where
  turn : ConversationTurn
  note_attempted : Bool
  task_attempted : Bool
  executor_ran : Bool
  note_content : Option String
  deriving DecidableEq, Repr

/-- Python truthiness of an optional string (`if x:`): `None` and `""` are
falsy. -/
def pyTruthyStr : Option String → Bool
  | none => false
  | some s => decide (s ≠ "")

/-- Python f-string rendering of an `Optional[str]`: `str(None) = "None"`. -/
def pyShowOptStr : Option String → String
  | none => "None"
  | some s => s

/-- Python `x or default` on an optional string: `None` and `""` both fall
through to the default. -/
def pyOrElse (o : Option String) (d : String) : String :=
  match o with
  | none => d
  | some s => if s = "" then d else s

/-- The `execution_log` string built at src/aklp/cli.py lines 171-175 from a
kubectl `ExecutionResult` (`if kubectl_result.stdout:` is Python truthiness
on the captured text). -/
def executionLog (r : ExecutionResult) : String :=
  (if r.stdout = "" then "" else "\n\n## 실행 결과\n```\n" ++ r.stdout ++ "\n```")
    ++ (if r.stderr = "" then "" else "\n\n## 오류 출력\n```\n" ++ r.stderr ++ "\n```")
    ++ "\n\n**Exit Code:** " ++ toString r.return_code

/-- The `note_content` f-string of src/aklp/cli.py line 193. -/
def noteContent (resp : AgentResponse) (log : String) : String :=
  "## 명령어\n```bash\n" ++ pyShowOptStr resp.command ++ "\n```\n\n## 설명\n"
    ++ pyOrElse resp.reason "" ++ log

/-- The `KeyboardInterrupt` handler of src/aklp/cli.py lines 225-228: it
sets `turn.error` to the fixed message and forces `executed = False`,
leaving every other field of the turn as already built. -/
def interruptTurn (t : ConversationTurn) : ConversationTurn :=
  { t with error := some "사용자 중단", executed := false }

/-- Step 6 of `process_user_request` (src/aklp/cli.py, lines 182-224): the
note creation followed by the task creation, both inside the one `try`
block whose `except NoteServiceError` / `except TaskServiceError` /
`except KeyboardInterrupt` handlers terminate the whole pipeline.  `turn`
is the turn built so far (with `executed = true`), `ran` records whether
the executor was run for this turn.  In the source this code is
unreachable (see `process_user_request`); it is embedded to document what
the dead persistence stage would do. -/
def persistTurn (turn : ConversationTurn) (resp : AgentResponse) (log : String)
    (env : Env) (ran : Bool) : PipelineResult :=
  let content := noteContent resp log
  match env.note with
  | .interrupted =>
      ⟨interruptTurn turn, true, false, ran, some content⟩
  | .failed m =>
      ⟨{ turn with error := some ("Note 서비스 오류: " ++ m) }, true, false, ran, some content⟩
  | .ok nr =>
      let turn := { turn with note_response := some nr }
      match env.task with
      | .interrupted =>
          ⟨interruptTurn turn, true, true, ran, some content⟩
      | .failed m =>
          ⟨{ turn with error := some ("Task 서비스 오류: " ++ m) }, true, true, ran, some content⟩
      | .ok tr =>
          ⟨{ turn with task_response := some tr }, true, true, ran, some content⟩

/-- The message of the `ValueError` pydantic v2 raises at src/aklp/cli.py
line 127: `ConversationTurn` declares no `llm_elapsed_time` field and its
model config does not allow extra attributes, so
`turn.llm_elapsed_time = time.time() - llm_start_time` raises
`ValueError('"ConversationTurn" object has no field "llm_elapsed_time"')`. -/
def llm_elapsed_time_field_error : String :=
  "\"ConversationTurn\" object has no field \"llm_elapsed_time\""

/-- The continuation of `process_user_request` past line 127
(src/aklp/cli.py, lines 130-224), for an agent response `resp` that has
arrived: the `success` flag check; the confirmation prompt;
`turn.executed = True`; guard validation and `run_kubectl` when a command
is present (an `InvalidCommandError` sets `turn.error` and returns); then
note and task creation in sequence.  In the source this code is DEAD: the
line-127 assignment raises first on every run where the agent call
returns, so no execution of the program ever enters it.  It is embedded to
document what the unreachable stages would do. -/
def turnPipelineRest (prompt : String) (resp : AgentResponse) (env : Env) : PipelineResult :=
  let turn : ConversationTurn := { user_prompt := prompt }
  if resp.success = false then
    ⟨{ turn with error := resp.error_message, executed := false }, false, false, false, none⟩
  else
    match env.confirm with
    | .interrupted => ⟨interruptTurn turn, false, false, false, none⟩
    | .no => ⟨{ turn with executed := false }, false, false, false, none⟩
    | .yes =>
        let turn := { turn with executed := true }
        match resp.command with
        | some cmd =>
            (match validate_kubectl_command cmd with
            | .error m => ⟨{ turn with error := some m }, false, false, false, none⟩
            | .ok _ =>
                let kres := run_kubectl env.spawn 60
                persistTurn turn resp (executionLog kres) env true)
        | none => persistTurn turn resp "" env false

/-- Embeds `process_user_request` (src/aklp/cli.py, lines 96-234).  The
external world is supplied as `env`; the returned `PipelineResult` carries
the source function's `ConversationTurn` plus call-site instrumentation.

Control flow, exactly as the source behaves at run time: the agent call
(its `AgentServiceError` and a `KeyboardInterrupt` during the call are
handled by the outer handlers); then, for every agent response that
arrives, the line-127 assignment `turn.llm_elapsed_time = ...` raises
pydantic's `ValueError` — `ConversationTurn` declares no such field — and
the generic `except Exception` handler (lines 229-232) sets
`turn.error = "예상치 못한 오류: " + str(e)` and returns the turn, whose
other fields still hold their defaults (`executed = False`, no side
effects).  The success check, confirmation, guard, executor and
persistence stages (lines 130-224, embedded as `turnPipelineRest`) are
unreachable. -/
def process_user_request (prompt : String) (env : Env) : PipelineResult :=
  let turn : ConversationTurn := { user_prompt := prompt }
  match env.agent with
  | .interrupted => ⟨interruptTurn turn, false, false, false, none⟩
  | .failed m =>
      ⟨{ turn with error := some ("Agent 서비스 오류: " ++ m) }, false, false, false, none⟩
  | .ok _ =>
      ⟨{ turn with error := some ("예상치 못한 오류: " ++ llm_elapsed_time_field_error) },
        false, false, false, none⟩

/-- The exit-code logic of `single_shot_mode` (src/aklp/cli.py, lines
290-299): `typer.Exit(code=1)` when `turn.error` is truthy, otherwise the
process ends with status 0 (either through the completion banner or
`typer.Exit(code=0)`). -/
def single_shot_exit_code (t : ConversationTurn) : Nat :=
  if pyTruthyStr t.error then 1
  else if t.executed then 0
  else 0

/-! ## Ledger: `HistoryManager` (src/aklp/history.py)

The history file holds one JSON document `{"sessions": [...]}`.  The JSON
values that can appear there are modelled by `JValue`; `model_dump(mode="json")`
/ `model_validate` become the explicit encoders and decoders below. -/

/-- A JSON value as stored in `~/.aklp_history.json`. -/
inductive JValue where
  | null
  | bool (b : Bool)
  | str (s : String)
  | arr (xs : List JValue)
  | obj (fields : List (String × JValue))

/-- Python `dict.get(key)` on a JSON object's field list (keys are unique in
a parsed JSON document; first match wins). -/
def lookupField : List (String × JValue) → String → Option JValue
  | [], _ => none
  | (k, v) :: rest, key => if k = key then some v else lookupField rest key

/-- `model_dump` of an optional string field: `None` becomes JSON null. -/
def encodeOptStr : Option String → JValue
  | none => .null
  | some s => .str s

/-- `model_validate` of an optional string field. -/
def decodeOptStr : Option JValue → Option (Option String)
  | some .null => some none
  | some (.str s) => some (some s)
  | _ => none

/-- `model_validate` of a required string field. -/
def decodeStr : Option JValue → Option String
  | some (.str s) => some s
  | _ => none

/-- `model_validate` of a required boolean field. -/
def decodeBool : Option JValue → Option Bool
  | some (.bool b) => some b
  | _ => none

/-- `model_validate` of an optional nested model: null means absent,
anything else goes through the nested decoder. -/
def decodeOptOf {α : Type} (f : JValue → Option α) : Option JValue → Option (Option α)
  | some .null => some none
  | some j => (f j).map some
  | none => none

/-- `model_dump` of an optional nested model. -/
def encodeOptOf {α : Type} (f : α → JValue) : Option α → JValue
  | none => .null
  | some a => f a

/-- `model_dump(mode="json")` of a `NoteResponse`. -/
def encodeNote (n : NoteResponse) : JValue :=
  .obj [("id", .str n.id), ("session_id", encodeOptStr n.session_id),
        ("title", .str n.title), ("content", .str n.content),
        ("created_at", .str n.created_at), ("updated_at", .str n.updated_at)]

/-- `NoteResponse.model_validate` on a JSON value. -/
def decodeNote : JValue → Option NoteResponse
  | .obj fs => do
      let id ← decodeStr (lookupField fs "id")
      let sid ← decodeOptStr (lookupField fs "session_id")
      let title ← decodeStr (lookupField fs "title")
      let content ← decodeStr (lookupField fs "content")
      let ca ← decodeStr (lookupField fs "created_at")
      let ua ← decodeStr (lookupField fs "updated_at")
      pure ⟨id, sid, title, content, ca, ua⟩
  | _ => none

/-- `TaskStatus` parsing (pydantic validates the enum's string value). -/
def decodeStatus : Option JValue → Option TaskStatus
  | some (.str "pending") => some .pending
  | some (.str "in_progress") => some .in_progress
  | some (.str "completed") => some .completed
  | _ => none

/-- `TaskPriority` parsing of an optional enum field. -/
def decodePriority : Option JValue → Option (Option TaskPriority)
  | some .null => some none
  | some (.str "high") => some (some .high)
  | some (.str "medium") => some (some .medium)
  | some (.str "low") => some (some .low)
  | _ => none

/-- `model_dump(mode="json")` of a `TaskResponse`. -/
def encodeTask (t : TaskResponse) : JValue :=
  .obj [("id", .str t.id), ("session_id", encodeOptStr t.session_id),
        ("title", .str t.title), ("description", encodeOptStr t.description),
        ("status", .str t.status.toStr),
        ("priority", encodeOptOf (fun p => .str p.toStr) t.priority),
        ("due_date", encodeOptStr t.due_date),
        ("completed_at", encodeOptStr t.completed_at),
        ("created_at", .str t.created_at), ("updated_at", .str t.updated_at)]

/-- `TaskResponse.model_validate` on a JSON value. -/
def decodeTask : JValue → Option TaskResponse
  | .obj fs => do
      let id ← decodeStr (lookupField fs "id")
      let sid ← decodeOptStr (lookupField fs "session_id")
      let title ← decodeStr (lookupField fs "title")
      let descr ← decodeOptStr (lookupField fs "description")
      let st ← decodeStatus (lookupField fs "status")
      let pri ← decodePriority (lookupField fs "priority")
      let dd ← decodeOptStr (lookupField fs "due_date")
      let compl ← decodeOptStr (lookupField fs "completed_at")
      let ca ← decodeStr (lookupField fs "created_at")
      let ua ← decodeStr (lookupField fs "updated_at")
      pure ⟨id, sid, title, descr, st, pri, dd, compl, ca, ua⟩
  | _ => none

/-- `model_dump(mode="json")` of an `AnalysisResult`. -/
def encodeAnalysis (a : AnalysisResult) : JValue :=
  .obj [("title", .str a.title), ("description", .str a.description),
        ("filename", .str a.filename), ("file_content", .str a.file_content),
        ("shell_command", .str a.shell_command)]

/-- `AnalysisResult.model_validate` on a JSON value. -/
def decodeAnalysis : JValue → Option AnalysisResult
  | .obj fs => do
      let title ← decodeStr (lookupField fs "title")
      let descr ← decodeStr (lookupField fs "description")
      let fn ← decodeStr (lookupField fs "filename")
      let fc ← decodeStr (lookupField fs "file_content")
      let sc ← decodeStr (lookupField fs "shell_command")
      pure ⟨title, descr, fn, fc, sc⟩
  | _ => none

/-- `model_dump(mode="json")` of a `ConversationTurn`. -/
def encodeTurn (t : ConversationTurn) : JValue :=
  .obj [("user_prompt", .str t.user_prompt),
        ("analysis", encodeOptOf encodeAnalysis t.analysis),
        ("executed", .bool t.executed),
        ("note_response", encodeOptOf encodeNote t.note_response),
        ("task_response", encodeOptOf encodeTask t.task_response),
        ("error", encodeOptStr t.error)]

/-- `ConversationTurn.model_validate` on a JSON value. -/
def decodeTurn : JValue → Option ConversationTurn
  | .obj fs => do
      let up ← decodeStr (lookupField fs "user_prompt")
      let an ← decodeOptOf decodeAnalysis (lookupField fs "analysis")
      let ex ← decodeBool (lookupField fs "executed")
      let nr ← decodeOptOf decodeNote (lookupField fs "note_response")
      let tr ← decodeOptOf decodeTask (lookupField fs "task_response")
      let er ← decodeOptStr (lookupField fs "error")
      pure ⟨up, an, ex, nr, tr, er⟩
  | _ => none

/-- `model_dump(mode="json")` of a `SessionHistory` (the `session_dict` of
src/aklp/history.py line 57). -/
def encodeSession (s : SessionHistory) : JValue :=
  .obj [("session_id", .str s.session_id), ("started_at", .str s.started_at),
        ("turns", .arr (s.turns.map encodeTurn))]

/-- Element-wise validation of the `turns` array (pydantic validates each
list element of the field in order, failing the whole model if one fails). -/
def decodeTurns : List JValue → Option (List ConversationTurn)
  | [] => some []
  | j :: rest => do
      let t ← decodeTurn j
      let ts ← decodeTurns rest
      pure (t :: ts)

/-- `SessionHistory.model_validate` on a JSON value (src/aklp/history.py
line 86). -/
def decodeSession : JValue → Option SessionHistory
  | .obj fs => do
      let sid ← decodeStr (lookupField fs "session_id")
      let sa ← decodeStr (lookupField fs "started_at")
      let turnsJ ←
        match lookupField fs "turns" with
        | some (.arr xs) => some xs
        | _ => none
      let turns ← decodeTurns turnsJ
      pure ⟨sid, sa, turns⟩
  | _ => none

/-- State of the history file `~/.aklp_history.json`: absent, present but not
valid JSON (`json.load` raises), or a parsed JSON document. -/
inductive StoreFile where
  | missing
  | unparseable
  | content (j : JValue)

/-- The read phase of `save_session` (src/aklp/history.py lines 51-55):
`all_sessions = []` when the file is missing; `data.get("sessions", [])`
when it parses to an object.  `none` means the read raises (file unparseable,
document not an object, or a `"sessions"` value that is not a list, on which
the later `append` raises) — `save_session` then swallows the exception and
leaves the store unchanged. -/
def readSessionsForSave : StoreFile → Option (List JValue)
  | .missing => some []
  | .unparseable => none
  | .content j =>
      match j with
      | .obj fs =>
          match lookupField fs "sessions" with
          | none => some []
          | some (.arr xs) => some xs
          | some _ => none
      | _ => none

/-- Embeds `HistoryManager.save_session` (src/aklp/history.py lines 48-68):
read the existing sessions, append the serialised current session, keep the
last `max_sessions = 100` (`all_sessions[-100:]`), and write the document
back; any exception leaves the store as it was. -/
def save_session (st : StoreFile) (s : SessionHistory) : StoreFile :=
  match readSessionsForSave st with
  | none => st
  | some xs =>
      let ys := xs ++ [encodeSession s]
      let capped := if ys.length > 100 then ys.drop (ys.length - 100) else ys
      .content (.obj [("sessions", .arr capped)])

/-- Embeds `HistoryManager.load_last_session` (src/aklp/history.py lines
70-89): `None` for a missing or unparseable file, a non-object document, a
missing/empty/non-list `"sessions"` value, or a last element that fails
`SessionHistory.model_validate`; otherwise the validated last session. -/
def load_last_session (st : StoreFile) : Option SessionHistory :=
  match st with
  | .content (.obj fs) =>
      match lookupField fs "sessions" with
      | some (.arr ys) => ys.getLast?.bind decodeSession
      | _ => none
  | _ => none

/-- The sessions list currently stored in the file, when the file holds a
well-formed history document. -/
def storedSessions (st : StoreFile) : Option (List JValue) :=
  match st with
  | .content (.obj fs) =>
      match lookupField fs "sessions" with
      | some (.arr ys) => some ys
      | _ => none
  | _ => none

/-- `save_session` once per session of a list, oldest first (one interactive
process invocation each). -/
def appendAll (st : StoreFile) (ss : List SessionHistory) : StoreFile :=
  ss.foldl save_session st

/-- The document `save_session` writes: `{"sessions": [...]}`. -/
def mkStore (ys : List JValue) : StoreFile :=
  .content (.obj [("sessions", .arr ys)])

/-! ## Concrete fixtures used by counterexamples and witnesses -/

/-- A concrete note-service response. -/
def demoNote : NoteResponse :=
  ⟨"n-0001", none, "List pods", "## 명령어", "2024-01-01T00:00:00", "2024-01-01T00:00:00"⟩

/-- A concrete task-service response. -/
def demoTask : TaskResponse :=
  ⟨"t-0001", none, "List pods", some "명령어: kubectl get pods -A", .pending, none,
   none, none, "2024-01-01T00:00:00", "2024-01-01T00:00:00"⟩

/-- A concrete successful agent response proposing a guard-passing command. -/
def demoAgent : AgentResponse :=
  { success := true, command := some "kubectl get pods -A",
    reason := some "모든 네임스페이스의 파드 조회", title := some "List pods" }

/-- A concrete session with one turn, used by the ledger witnesses. -/
def demoSession : SessionHistory :=
  ⟨"s-0001", "2024-01-01T00:00:00",
   [⟨"list pods", none, true, some demoNote, some demoTask, none⟩]⟩

/-- The `i`-th of a family of pairwise distinct sessions. -/
def demoSessionAt (i : Nat) : SessionHistory :=
  ⟨"s-" ++ toString i, "2024-01-01T00:00:00", []⟩

/-! ## Helper lemmas -/

/-- Taking at most `n` characters of a string no longer than `n` returns the
string itself. -/
theorem pyTake_of_le (s : String) (n : Nat) (h : pyLen s ≤ n) : pyTake s n = s := by
  cases s with
  | mk data =>
      simp only [pyTake, pyLen] at *
      rw [List.take_of_length_le h]

/-! ## Claim theorems: guard and executor -/

/-- C5.  A command whose stripped text does not start with `"kubectl "` is
rejected, with a message carrying a preview of at most 50 characters of the
stripped text and an ellipsis exactly when the stripped text is longer than
50 characters; a command whose stripped text does start with `"kubectl "`
passes.  The check is a pure function (it is a Lean `def` with no state). -/
theorem C5_guard_validate (command : String) :
    (pyStartsWith (pyStrip command) "kubectl " = false →
      validate_kubectl_command command =
        .error ("kubectl 명령어가 아닙니다: " ++ pyTake (pyStrip command) 50 ++
          (if 50 < pyLen (pyStrip command) then "..." else ""))
      ∧ pyLen (pyTake (pyStrip command) 50) ≤ 50)
  ∧ (pyStartsWith (pyStrip command) "kubectl " = true →
      validate_kubectl_command command = .ok true) := by
  constructor
  · intro h
    constructor
    · simp only [validate_kubectl_command, guardCheck, h, Bool.false_eq_true,
        not_false_iff, if_true, gt_iff_lt]
      by_cases hl : 50 < pyLen (pyStrip command)
      · simp [hl]
      · simp only [hl, if_false]
        rw [pyTake_of_le _ _ (Nat.le_of_not_lt hl)]
        simp
    · simp only [pyLen, pyTake, List.length_take]
      exact Nat.min_le_left _ _
  · intro h
    simp [validate_kubectl_command, guardCheck, h]

/-- Witness for C5: a concrete rejection (short input, no ellipsis), a
concrete rejection of a 60-character command (preview truncated to 50 with
an ellipsis), and a concrete acceptance. -/
theorem C5_guard_validate_witness :
    validate_kubectl_command "rm -rf /" =
      .error "kubectl 명령어가 아닙니다: rm -rf /"
  ∧ validate_kubectl_command "echo aaaaaaaaaaaaaaaaaaaaaaaaaaaaaaaaaaaaaaaaaaaaaaaaaaaaaaa" =
      .error "kubectl 명령어가 아닙니다: echo aaaaaaaaaaaaaaaaaaaaaaaaaaaaaaaaaaaaaaaaaaaaa..."
  ∧ validate_kubectl_command "  kubectl get pods  " = .ok true := by
  refine ⟨?_, ?_, ?_⟩
  · have h := (C5_guard_validate "rm -rf /").1 (by decide)
    rw [h.1]
    rfl
  · have h := (C5_guard_validate
      "echo aaaaaaaaaaaaaaaaaaaaaaaaaaaaaaaaaaaaaaaaaaaaaaaaaaaaaaa").1 (by decide)
    rw [h.1]
    rfl
  · exact (C5_guard_validate "  kubectl get pods  ").2 (by decide)

/-- C6.  `run_kubectl` is a total function of the subprocess outcome (every
failure mode is a returned value, never an exception): on completion the
result carries the real exit code and `success` is exactly "exit code 0";
on timeout it is the sentinel `-1` with empty stdout and a message naming
the configured timeout; on launch failure it is the sentinel `-1` with the
underlying error text; and `success = (return_code = 0)` on every path. -/
theorem C6_executor_contract (t : Nat) (out err : String) (rc : Int) (m : String) :
    run_kubectl (.completed out err rc) t =
      { success := rc == 0, stdout := out, stderr := err, return_code := rc }
  ∧ run_kubectl .timedOut t =
      { success := false, stdout := "",
        stderr := "명령어 실행 시간 초과 (" ++ toString t ++ "초)", return_code := -1 }
  ∧ run_kubectl (.launchFailure m) t =
      { success := false, stdout := "", stderr := m, return_code := -1 }
  ∧ ∀ o : SpawnOutcome,
      ((run_kubectl o t).success = true ↔ (run_kubectl o t).return_code = 0) := by
  refine ⟨rfl, rfl, rfl, ?_⟩
  intro o
  cases o with
  | completed o e rc => simp [run_kubectl]
  | timedOut => simp [run_kubectl]
  | launchFailure m => simp [run_kubectl]

/-- C9.  Any input whose stripped text is exactly `"kubectl"` — the allowed
executable invoked with no arguments, possibly with surrounding whitespace —
is rejected by the guard, because stripping removes the trailing whitespace
the prefix-plus-space check would need. -/
theorem C9_bare_kubectl_rejected (s : String) (h : pyStrip s = "kubectl") :
    validate_kubectl_command s = .error "kubectl 명령어가 아닙니다: kubectl" := by
  show guardCheck (pyStrip s) = _
  rw [h]
  rfl

/-- Witness for C9: the bare command with trailing whitespace. -/
theorem C9_bare_kubectl_rejected_witness :
    validate_kubectl_command "kubectl " =
      .error "kubectl 명령어가 아닙니다: kubectl" :=
  C9_bare_kubectl_rejected "kubectl " (by decide)

/-! ## Claim theorems: orchestrator -/

/-- The claim scenario for the persistence stage: a successful agent
response, a confirming user, a succeeding command, a failing note service,
a healthy task service. -/
def envNoteFails : Env :=
  { agent := .ok demoAgent, confirm := .yes, spawn := .completed "NAME ..." "" 0,
    note := .failed "note down", task := .ok demoTask }

/-- C1 (code bug).  The persistence stage is dynamically unreachable, so
neither creation is ever attempted: on every run where the agent call
returns a response — including the claim's premise scenario, with a failing
note service and a healthy task service — the line-127 assignment raises
pydantic's `ValueError` and the generic handler returns the turn with the
"예상치 못한 오류" message.  Moreover, even on the unreachable continuation
(`turnPipelineRest`) the creations are sequential, not independent: a
note-service failure prevents the task creation from being attempted. -/
theorem C1_persistence_never_attempted :
    ((process_user_request "list pods" envNoteFails).note_attempted = false
      ∧ (process_user_request "list pods" envNoteFails).task_attempted = false
      ∧ (process_user_request "list pods" envNoteFails).turn.error =
          some ("예상치 못한 오류: " ++ llm_elapsed_time_field_error))
  ∧ (∀ (p : String) (env : Env),
      (process_user_request p env).note_attempted = false
      ∧ (process_user_request p env).task_attempted = false)
  ∧ (∀ (p : String) (resp : AgentResponse) (env : Env) (m : String),
      env.note = .failed m →
        (turnPipelineRest p resp env).task_attempted = false) := by
  refine ⟨⟨rfl, rfl, rfl⟩, ?_, ?_⟩
  · intro p env
    rcases env with ⟨agent, confirm, spawn, note, task⟩
    cases agent <;> simp [process_user_request, interruptTurn]
  · intro p resp env m hm
    rcases env with ⟨agent, confirm, spawn, note, task⟩
    simp only [Env.note] at hm
    subst hm
    cases hs : resp.success with
    | false => simp [turnPipelineRest, hs]
    | true =>
        cases confirm with
        | interrupted => simp [turnPipelineRest, hs]
        | no => simp [turnPipelineRest, hs]
        | yes =>
            cases hc : resp.command with
            | none => simp [turnPipelineRest, hs, hc, persistTurn]
            | some cmd =>
                cases hv : validate_kubectl_command cmd with
                | error m2 => simp [turnPipelineRest, hs, hc, hv]
                | ok b => simp [turnPipelineRest, hs, hc, hv, persistTurn]

/-- Witness for C1: the note-failure hypothesis discharged concretely on
the unreachable continuation. -/
theorem C1_persistence_never_attempted_witness :
    (turnPipelineRest "list pods" demoAgent envNoteFails).task_attempted = false :=
  C1_persistence_never_attempted.2.2 "list pods" demoAgent envNoteFails "note down" rfl

/-- The environment of scenario D: the command exits 2, the note service is
healthy, the task service fails. -/
def envTaskFails : Env :=
  { agent := .ok demoAgent, confirm := .yes,
    spawn := .completed "" "Error from server" 2,
    note := .ok demoNote, task := .failed "task down" }

/-- Counterexample to C2.  At scenario D's input the returned turn does not
have `error` absent and a note side effect present: the pipeline dies at
the line-127 assignment before any persistence call, so `error` is the
"예상치 못한 오류" pydantic message and both side-effect fields are
`None`. -/
theorem C2_counterexample :
    (process_user_request "list pods" envTaskFails).turn.error =
      some ("예상치 못한 오류: " ++ llm_elapsed_time_field_error)
  ∧ (process_user_request "list pods" envTaskFails).turn.error ≠ none
  ∧ (process_user_request "list pods" envTaskFails).turn.note_response = none
  ∧ (process_user_request "list pods" envTaskFails).turn.task_response = none := by
  refine ⟨rfl, ?_, rfl, rfl⟩
  intro h
  exact Option.noConfusion h

/-- C2 as amended.  For every turn whose agent call returns a response —
scenario D's included — the pipeline aborts at the `llm_elapsed_time`
assignment: the returned turn is the default turn with
`error = "예상치 못한 오류: ..."` (the pydantic no-field message), no note
side effect and no task side effect; no persistence call is ever issued,
so `Turn.error` never holds a note- or task-service message. -/
theorem C2_line127_shadows_persistence (p : String) (env : Env)
    (resp : AgentResponse) (ha : env.agent = .ok resp) :
    (process_user_request p env).turn =
      { user_prompt := p,
        error := some ("예상치 못한 오류: " ++ llm_elapsed_time_field_error) } := by
  rcases env with ⟨agent, confirm, spawn, note, task⟩
  simp only [Env.agent] at ha
  subst ha
  rfl

/-- Witness for C2 as amended: scenario D's environment concretely. -/
theorem C2_line127_shadows_persistence_witness :
    (process_user_request "list pods" envTaskFails).turn =
      { user_prompt := "list pods",
        error := some ("예상치 못한 오류: " ++ llm_elapsed_time_field_error) } :=
  C2_line127_shadows_persistence "list pods" envTaskFails demoAgent rfl

/-- The claim scenario for execution: a successful agent response with a
guard-passing command, a confirming user, a command exiting 0, healthy
persistence services. -/
def envExecOk : Env :=
  { agent := .ok demoAgent, confirm := .yes, spawn := .completed "NAME ..." "" 0,
    note := .ok demoNote, task := .ok demoTask }

/-- C3 (code bug).  The executor is never run: the pipeline raises at the
line-127 assignment before the confirmation prompt, the guard and
`run_kubectl` (so no note content is ever built either), and at the
claim's own scenario the turn comes back with the "예상치 못한 오류"
message.  Independently of reachability, `ConversationTurn`
(src/aklp/models.py lines 217-226) has no execution-result field on which
a result could be recorded. -/
theorem C3_executor_never_run :
    (∀ (p : String) (env : Env),
      (process_user_request p env).executor_ran = false
      ∧ (process_user_request p env).note_content = none)
  ∧ (process_user_request "list pods" envExecOk).turn.error =
      some ("예상치 못한 오류: " ++ llm_elapsed_time_field_error) := by
  refine ⟨?_, rfl⟩
  intro p env
  rcases env with ⟨agent, confirm, spawn, note, task⟩
  cases agent <;> simp [process_user_request]

/-- C4.  For every returned turn with the executed flag false, both
side-effect fields are absent (`ConversationTurn` has no execution-result
field, so the execution result is absent from the model itself).  The
invariant holds on every path of the source: the pipeline returns only
default turns decorated with an error, before any side effect is
recorded. -/
theorem C4_unexecuted_turn_side_effects (p : String) (env : Env)
    (_h : (process_user_request p env).turn.executed = false) :
    (process_user_request p env).turn.note_response = none
  ∧ (process_user_request p env).turn.task_response = none := by
  rcases env with ⟨agent, confirm, spawn, note, task⟩
  cases agent <;> simp [process_user_request, interruptTurn]

/-- Witness for C4: a turn whose agent call fails. -/
theorem C4_unexecuted_turn_side_effects_witness :
    (process_user_request "list pods"
      { agent := .failed "down", confirm := .no, spawn := .timedOut,
        note := .ok demoNote, task := .ok demoTask }).turn.note_response = none :=
  (C4_unexecuted_turn_side_effects "list pods"
    { agent := .failed "down", confirm := .no, spawn := .timedOut,
      note := .ok demoNote, task := .ok demoTask } rfl).1

/-- The claim scenario for C10: the agent reports `success = false` with a
null `error_message`. -/
def envSoftFailure : Env :=
  { agent := .ok { success := false }, confirm := .no, spawn := .timedOut,
    note := .interrupted, task := .interrupted }

/-- Counterexample to C10.  With `success = false` and `error_message`
null, the returned turn does NOT have `error` absent and single-shot mode
does NOT exit 0: the success check at src/aklp/cli.py line 134 is never
reached, because line 127 raises first; the generic handler sets
`turn.error` to the "예상치 못한 오류" message, which is truthy, so the
exit status is 1. -/
theorem C10_counterexample :
    (process_user_request "ambiguous" envSoftFailure).turn.error =
      some ("예상치 못한 오류: " ++ llm_elapsed_time_field_error)
  ∧ (process_user_request "ambiguous" envSoftFailure).turn.error ≠ none
  ∧ single_shot_exit_code (process_user_request "ambiguous" envSoftFailure).turn = 1 := by
  refine ⟨rfl, ?_, rfl⟩
  intro h
  exact Option.noConfusion h

/-- C10 as amended.  For every reasoning response that arrives with
`success = false` and a null `errorMessage`, the returned turn nevertheless
has `error` set — to the "예상치 못한 오류" pydantic message from the
line-127 assignment, since the success check at line 134 is never reached —
and `executed = false`; `single_shot_mode` still derives its exit status
solely from the truthiness of `Turn.error`, so the process exits 1,
not 0. -/
theorem C10_soft_failure_still_errors (p : String) (env : Env)
    (resp : AgentResponse) (ha : env.agent = .ok resp)
    (_hs : resp.success = false) (_he : resp.error_message = none) :
    (process_user_request p env).turn.error =
      some ("예상치 못한 오류: " ++ llm_elapsed_time_field_error)
  ∧ (process_user_request p env).turn.executed = false
  ∧ single_shot_exit_code (process_user_request p env).turn = 1 := by
  rcases env with ⟨agent, confirm, spawn, note, task⟩
  simp only [Env.agent] at ha
  subst ha
  exact ⟨rfl, rfl, rfl⟩

/-- Witness for C10 as amended. -/
theorem C10_soft_failure_still_errors_witness :
    single_shot_exit_code
      (process_user_request "ambiguous" envSoftFailure).turn = 1 :=
  (C10_soft_failure_still_errors "ambiguous" envSoftFailure
    { success := false } rfl rfl rfl).2.2

/-! ## Serialisation round-trip lemmas -/

theorem decodeAnalysis_encodeAnalysis (a : AnalysisResult) :
    decodeAnalysis (encodeAnalysis a) = some a := by
  rcases a with ⟨t, d, fn, fc, sc⟩
  rfl

theorem decodeNote_encodeNote (n : NoteResponse) :
    decodeNote (encodeNote n) = some n := by
  rcases n with ⟨id, sid, title, content, ca, ua⟩
  cases sid <;> rfl

theorem decodeTask_encodeTask (t : TaskResponse) :
    decodeTask (encodeTask t) = some t := by
  rcases t with ⟨id, sid, title, de, st, pri, dd, co, ca, ua⟩
  cases sid <;> cases de <;> cases dd <;> cases co <;> cases st <;>
    rcases pri with _ | p <;>
      first
      | rfl
      | (cases p <;> rfl)

theorem decodeOptStr_encodeOptStr (o : Option String) :
    decodeOptStr (some (encodeOptStr o)) = some o := by
  cases o <;> rfl

/-- `decodeOptOf` on a non-null payload delegates to the nested decoder. -/
theorem decodeOptOf_some {α : Type} (g : JValue → Option α) (j : JValue)
    (hj : j ≠ .null) : decodeOptOf g (some j) = (g j).map some := by
  cases j <;> first | (exact absurd rfl hj) | rfl

/-- Optional nested models round-trip as soon as the nested model does and
the nested encoder never produces JSON null. -/
theorem decodeOptOf_encodeOptOf {α : Type} (f : α → JValue) (g : JValue → Option α)
    (h : ∀ a, g (f a) = some a) (hnn : ∀ a, f a ≠ .null) (o : Option α) :
    decodeOptOf g (some (encodeOptOf f o)) = some o := by
  cases o with
  | none => rfl
  | some a =>
      have h1 : encodeOptOf f (some a) = f a := rfl
      rw [h1, decodeOptOf_some g (f a) (hnn a), h a]
      rfl

theorem decodeTurn_encodeTurn (t : ConversationTurn) :
    decodeTurn (encodeTurn t) = some t := by
  rcases t with ⟨up, an, ex, nr, tr, er⟩
  have h1 : decodeTurn (encodeTurn ⟨up, an, ex, nr, tr, er⟩) =
      (decodeOptOf decodeAnalysis (some (encodeOptOf encodeAnalysis an))).bind (fun an2 =>
        (decodeOptOf decodeNote (some (encodeOptOf encodeNote nr))).bind (fun nr2 =>
          (decodeOptOf decodeTask (some (encodeOptOf encodeTask tr))).bind (fun tr2 =>
            (decodeOptStr (some (encodeOptStr er))).bind (fun er2 =>
              some ⟨up, an2, ex, nr2, tr2, er2⟩)))) := rfl
  rw [h1,
    decodeOptOf_encodeOptOf encodeAnalysis decodeAnalysis decodeAnalysis_encodeAnalysis
      (fun a => by simp [encodeAnalysis]) an,
    decodeOptOf_encodeOptOf encodeNote decodeNote decodeNote_encodeNote
      (fun n => by simp [encodeNote]) nr,
    decodeOptOf_encodeOptOf encodeTask decodeTask decodeTask_encodeTask
      (fun x => by simp [encodeTask]) tr,
    decodeOptStr_encodeOptStr er]
  rfl

theorem decodeTurns_map_encodeTurn (ts : List ConversationTurn) :
    decodeTurns (ts.map encodeTurn) = some ts := by
  induction ts with
  | nil => rfl
  | cons t rest ih =>
      have h1 : decodeTurns ((t :: rest).map encodeTurn) =
          (decodeTurn (encodeTurn t)).bind (fun t2 =>
            (decodeTurns (rest.map encodeTurn)).bind (fun ts2 => some (t2 :: ts2))) := rfl
      rw [h1, decodeTurn_encodeTurn, ih]
      rfl

theorem decodeSession_encodeSession (s : SessionHistory) :
    decodeSession (encodeSession s) = some s := by
  rcases s with ⟨sid, sa, turns⟩
  have h1 : decodeSession (encodeSession ⟨sid, sa, turns⟩) =
      (decodeTurns (turns.map encodeTurn)).bind (fun ts => some ⟨sid, sa, ts⟩) := rfl
  rw [h1, decodeTurns_map_encodeTurn turns]
  rfl

/-! ## Ledger lemmas -/

/-- Keeping the last `n` elements twice while appending is the same as
keeping the last `n` of the whole concatenation. -/
theorem rtake_append_rtake {α : Type} (n : Nat) (a b : List α) :
    (a.rtake n ++ b).rtake n = (a ++ b).rtake n := by
  rw [List.rtake_eq_reverse_take_reverse, List.rtake_eq_reverse_take_reverse,
    List.rtake_eq_reverse_take_reverse]
  rw [List.reverse_append, List.reverse_reverse, List.reverse_append]
  rw [List.take_append_eq_append_take, List.take_append_eq_append_take]
  rw [List.take_take, List.length_reverse]
  rw [min_eq_left (Nat.sub_le n b.length)]

/-- `rtake n` is the identity on lists of length at most `n`. -/
theorem rtake_of_length_le {α : Type} (n : Nat) (l : List α) (h : l.length ≤ n) :
    l.rtake n = l := by
  simp [List.rtake, Nat.sub_eq_zero_of_le h]

theorem rtake_length {α : Type} (n : Nat) (l : List α) :
    (l.rtake n).length = l.length - (l.length - n) := by
  simp [List.rtake]

/-- On any store whose read phase succeeds, `save_session` writes back a
fresh `{"sessions": ...}` document holding the last 100 of the previous
sessions plus the new one. -/
theorem save_session_eq (st : StoreFile) (xs : List JValue) (s : SessionHistory)
    (h : readSessionsForSave st = some xs) :
    save_session st s = mkStore ((xs ++ [encodeSession s]).rtake 100) := by
  have h0 : save_session st s =
      .content (.obj [("sessions", .arr (if (xs ++ [encodeSession s]).length > 100
        then (xs ++ [encodeSession s]).drop ((xs ++ [encodeSession s]).length - 100)
        else xs ++ [encodeSession s]))]) := by
    simp only [save_session, h]
  rw [h0]
  by_cases hl : (xs ++ [encodeSession s]).length > 100
  · rw [if_pos hl]
    rfl
  · rw [if_neg hl, rtake_of_length_le 100 _ (Nat.le_of_not_lt hl)]
    rfl

/-- The read phase succeeds on every document `save_session` writes. -/
theorem readSessionsForSave_mkStore (ys : List JValue) :
    readSessionsForSave (mkStore ys) = some ys := rfl

theorem storedSessions_mkStore (ys : List JValue) :
    storedSessions (mkStore ys) = some ys := rfl

theorem load_last_session_mkStore (ys : List JValue) :
    load_last_session (mkStore ys) = ys.getLast?.bind decodeSession := rfl

/-- Folding `save_session` over a list of sessions, starting from any
well-formed store of at most 100 sessions, leaves exactly the last 100 of
"previous contents followed by the new sessions in append order". -/
theorem appendAll_mkStore (ss : List SessionHistory) :
    ∀ xs : List JValue, xs.length ≤ 100 →
      appendAll (mkStore xs) ss = mkStore ((xs ++ ss.map encodeSession).rtake 100) := by
  induction ss with
  | nil =>
      intro xs h
      show mkStore xs = _
      simp only [List.map_nil, List.append_nil]
      rw [rtake_of_length_le 100 xs h]
  | cons s rest ih =>
      intro xs h
      have h1 : appendAll (mkStore xs) (s :: rest) =
          appendAll (save_session (mkStore xs) s) rest := rfl
      rw [h1, save_session_eq (mkStore xs) xs s (readSessionsForSave_mkStore xs)]
      rw [ih ((xs ++ [encodeSession s]).rtake 100)
        (by rw [rtake_length]; omega)]
      rw [rtake_append_rtake, List.append_assoc]
      rfl

/-- The first `save_session` on a missing history file stores exactly the
one new session. -/
theorem save_session_missing (s : SessionHistory) :
    save_session .missing s = mkStore [encodeSession s] := rfl

/-! ## Claim theorems: ledger -/

/-- C7.  Appending 105 sessions one at a time to an empty (missing) ledger
stores exactly the encodings of the last 100, the 5 oldest evicted; and in
general every single `save_session` on a readable store retains exactly the
most recent 100 sessions of "previous sessions plus the new one", in append
order (`all_sessions[-100:]` is `drop (length - 100)`).  The merged list is
a value constructed before the new store exists, which is the pure-model
image of "the merged structure is built fully in memory before the store is
written back". -/
theorem C7_ledger_bounded :
    (∀ ss : List SessionHistory, ss.length = 105 →
      storedSessions (appendAll .missing ss) = some ((ss.drop 5).map encodeSession)
      ∧ ((ss.drop 5).map encodeSession).length = 100)
  ∧ (∀ (st : StoreFile) (xs : List JValue) (s : SessionHistory),
      readSessionsForSave st = some xs →
      storedSessions (save_session st s) =
        some ((xs ++ [encodeSession s]).drop ((xs ++ [encodeSession s]).length - 100))) := by
  constructor
  · intro ss hlen
    cases ss with
    | nil => simp at hlen
    | cons s rest =>
        have h1 : appendAll .missing (s :: rest) =
            appendAll (mkStore [encodeSession s]) rest := rfl
        have h2 : appendAll (mkStore [encodeSession s]) rest =
            mkStore (([encodeSession s] ++ rest.map encodeSession).rtake 100) :=
          appendAll_mkStore rest [encodeSession s] (by simp)
        have h3 : [encodeSession s] ++ rest.map encodeSession =
            (s :: rest).map encodeSession := rfl
        have hlen2 : ((s :: rest).map encodeSession).length = 105 := by
          simpa using hlen
        have hr : ∀ l : List JValue, l.length = 105 → l.rtake 100 = l.drop 5 := by
          intro l hl
          show l.drop (l.length - 100) = l.drop 5
          rw [hl]
        constructor
        · rw [h1, h2, h3, storedSessions_mkStore,
            hr ((s :: rest).map encodeSession) hlen2, List.map_drop]
        · rw [List.length_map, List.length_drop, hlen]
  · intro st xs s h
    rw [save_session_eq st xs s h, storedSessions_mkStore]
    rfl

/-- Witness for C7: 105 concrete pairwise distinct sessions. -/
theorem C7_ledger_bounded_witness :
    storedSessions (appendAll .missing ((List.range 105).map demoSessionAt)) =
      some ((((List.range 105).map demoSessionAt).drop 5).map encodeSession) :=
  (C7_ledger_bounded.1 ((List.range 105).map demoSessionAt) (by simp)).1

/-- The last element of the encoded list decodes back to the last session. -/
theorem getLast_map_decode :
    ∀ (ss : List SessionHistory) (s : SessionHistory), ss.getLast? = some s →
      (ss.map encodeSession).getLast?.bind decodeSession = some s := by
  intro ss
  induction ss with
  | nil => intro s h; simp at h
  | cons x rest ih =>
      intro s h
      cases rest with
      | nil =>
          simp only [List.getLast?_singleton, Option.some.injEq] at h
          subst h
          simp [decodeSession_encodeSession]
      | cons y t =>
          rw [List.getLast?_cons_cons] at h
          have h2 := ih s h
          have h3 : ((x :: y :: t).map encodeSession).getLast? =
              ((y :: t).map encodeSession).getLast? := by
            simp only [List.map_cons]
            rw [List.getLast?_cons_cons]
          rw [h3]
          exact h2

/-- C8.  Appending `N` sessions (`1 ≤ N ≤ 100`, pairwise distinct) to an
empty ledger and then loading the latest returns the `N`-th appended session
with every session and turn field unchanged (full round trip through the
JSON encoding); and `load_last_session` returns `none` — never an
exception — on a missing store, an unparseable store, and a store whose
sessions list is empty. -/
theorem C8_ledger_roundtrip :
    (∀ (ss : List SessionHistory) (s : SessionHistory),
      1 ≤ ss.length → ss.length ≤ 100 → ss.Nodup → ss.getLast? = some s →
      load_last_session (appendAll .missing ss) = some s)
  ∧ load_last_session .missing = none
  ∧ load_last_session .unparseable = none
  ∧ load_last_session (mkStore []) = none := by
  refine ⟨?_, rfl, rfl, rfl⟩
  intro ss s h1 h100 _hnd hlast
  cases ss with
  | nil => simp at h1
  | cons x rest =>
      have ha : appendAll .missing (x :: rest) =
          appendAll (mkStore [encodeSession x]) rest := rfl
      have hb : appendAll (mkStore [encodeSession x]) rest =
          mkStore (([encodeSession x] ++ rest.map encodeSession).rtake 100) :=
        appendAll_mkStore rest [encodeSession x] (by simp)
      have hc : [encodeSession x] ++ rest.map encodeSession =
          (x :: rest).map encodeSession := rfl
      have hall : ((x :: rest).map encodeSession).rtake 100 =
          (x :: rest).map encodeSession := by
        apply rtake_of_length_le
        simpa using h100
      rw [ha, hb, hc, hall, load_last_session_mkStore]
      exact getLast_map_decode (x :: rest) s hlast

/-- Witness for C8: one concrete appended session loads back unchanged. -/
theorem C8_ledger_roundtrip_witness :
    load_last_session (appendAll .missing [demoSession]) = some demoSession :=
  C8_ledger_roundtrip.1 [demoSession] demoSession (by simp) (by simp)
    (List.nodup_singleton demoSession) rfl

end Aklp

